import Mathlib

/-!
Verification of the SpaceTravel software rasterizer core.

The development shallowly embeds the Rust sources (`src/SpaceTravel/ns.rs`,
`src/SpaceTravel/src/shaders.rs`).  Machine floats are modelled by an
arbitrary linear ordered field `K` (rationals instantiate it for concrete
evaluation); the transcendental primitives of the `f32` type that the code
uses (`sin`, `cos`, `powf`, `sqrt`), the raylib `Vector3::normalize`, and
the `as i32` cast are collected in an abstract operations record `FOps`,
since their implementations live in external libraries, not in this
repository.
-/

set_option autoImplicit false

namespace SpaceTravel

/-- Modelled from the spec (§3 Data model): raylib `Vector3`, a triple of
scalars; the file defining it is external to the repository. -/
structure Vec3 (K : Type) where
  x : K
  y : K
  z : K
deriving Repr, DecidableEq

/-- Modelled from the spec (§3 Data model): raylib `Vector4`, a quadruple of
scalars used for homogeneous coordinates. -/
structure Vec4 (K : Type) where
  x : K
  y : K
  z : K
  w : K
deriving Repr, DecidableEq

/-- Modelled from the spec (§4.1 Math Kernel): a 4×4 matrix given by its
sixteen entries (`matrix.rs` is not under `src/`). -/
structure Mat4 (K : Type) where
  m00 : K
  m01 : K
  m02 : K
  m03 : K
  m10 : K
  m11 : K
  m12 : K
  m13 : K
  m20 : K
  m21 : K
  m22 : K
  m23 : K
  m30 : K
  m31 : K
  m32 : K
  m33 : K
deriving Repr, DecidableEq

variable {K : Type} [LinearOrderedField K]

/-- Modelled from the spec (§4.1): `multiplyMatrixVector4(matrix, vec4)`,
the standard linear map of a 4×4 matrix on a 4-vector (`matrix.rs` is not
under `src/`). -/
def multiply_matrix_vector4 (m : Mat4 K) (v : Vec4 K) : Vec4 K :=
  { x := m.m00 * v.x + m.m01 * v.y + m.m02 * v.z + m.m03 * v.w
    y := m.m10 * v.x + m.m11 * v.y + m.m12 * v.z + m.m13 * v.w
    z := m.m20 * v.x + m.m21 * v.y + m.m22 * v.z + m.m23 * v.w
    w := m.m30 * v.x + m.m31 * v.y + m.m32 * v.z + m.m33 * v.w }

/-- Standard 4×4 matrix product, used to state the spec-side composed form
`projection · view · model` of the clip transform. -/
def matMul (a b : Mat4 K) : Mat4 K :=
  { m00 := a.m00 * b.m00 + a.m01 * b.m10 + a.m02 * b.m20 + a.m03 * b.m30
    m01 := a.m00 * b.m01 + a.m01 * b.m11 + a.m02 * b.m21 + a.m03 * b.m31
    m02 := a.m00 * b.m02 + a.m01 * b.m12 + a.m02 * b.m22 + a.m03 * b.m32
    m03 := a.m00 * b.m03 + a.m01 * b.m13 + a.m02 * b.m23 + a.m03 * b.m33
    m10 := a.m10 * b.m00 + a.m11 * b.m10 + a.m12 * b.m20 + a.m13 * b.m30
    m11 := a.m10 * b.m01 + a.m11 * b.m11 + a.m12 * b.m21 + a.m13 * b.m31
    m12 := a.m10 * b.m02 + a.m11 * b.m12 + a.m12 * b.m22 + a.m13 * b.m32
    m13 := a.m10 * b.m03 + a.m11 * b.m13 + a.m12 * b.m23 + a.m13 * b.m33
    m20 := a.m20 * b.m00 + a.m21 * b.m10 + a.m22 * b.m20 + a.m23 * b.m30
    m21 := a.m20 * b.m01 + a.m21 * b.m11 + a.m22 * b.m21 + a.m23 * b.m31
    m22 := a.m20 * b.m02 + a.m21 * b.m12 + a.m22 * b.m22 + a.m23 * b.m32
    m23 := a.m20 * b.m03 + a.m21 * b.m13 + a.m22 * b.m23 + a.m23 * b.m33
    m30 := a.m30 * b.m00 + a.m31 * b.m10 + a.m32 * b.m20 + a.m33 * b.m30
    m31 := a.m30 * b.m01 + a.m31 * b.m11 + a.m32 * b.m21 + a.m33 * b.m31
    m32 := a.m30 * b.m02 + a.m31 * b.m12 + a.m32 * b.m22 + a.m33 * b.m32
    m33 := a.m30 * b.m03 + a.m31 * b.m13 + a.m32 * b.m23 + a.m33 * b.m33 }

/-- Matrix application commutes with matrix composition: sequentially
applying `b` then `a` is applying the product `a · b`. -/
theorem mulMV_matMul (a b : Mat4 K) (v : Vec4 K) :
    multiply_matrix_vector4 (matMul a b) v
      = multiply_matrix_vector4 a (multiply_matrix_vector4 b v) := by
  simp only [multiply_matrix_vector4, matMul, Vec4.mk.injEq]
  refine ⟨by ring, by ring, by ring, by ring⟩

/-- Abstract record of the floating-point primitives used by the code whose
implementations are external to the repository (Rust `f32::sin`, `cos`,
`powf`, raylib `Vector3::length`/`normalize`, the `as i32` cast). -/
structure FOps (K : Type) where
  sin : K → K
  cos : K → K
  powf : K → K → K
  sqrt : K → K
  normalizeV : Vec3 K → Vec3 K
  toI32 : K → Int

/-- Modelled from the spec (§3 Data model): the `Vertex` record of
`vertex.rs` (not under `src/`): immutable object-space attributes plus the
derived transformed position and normal. -/
structure Vertex (K : Type) where
  position : Vec3 K
  normal : Vec3 K
  tex_coords : K × K
  color : Vec3 K
  transformed_position : Vec3 K
  transformed_normal : Vec3 K
deriving Repr, DecidableEq

/-- The `Uniforms` struct of `ns.rs` (lines 25–32). -/
structure Uniforms (K : Type) where
  model_matrix : Mat4 K
  view_matrix : Mat4 K
  projection_matrix : Mat4 K
  viewport_matrix : Mat4 K
  time : K
  dt : K
deriving Repr, DecidableEq

/-- Drop the `w` component of a homogeneous 4-vector, as the code does when
building a `Vector3` from the first three fields of a `Vector4`. -/
def vec4xyz (v : Vec4 K) : Vec3 K :=
  { x := v.x, y := v.y, z := v.z }

/-- Embedding of `transform_normal` (`shaders.rs` lines 7–22): extend the
normal with `w = 0`, apply the model matrix, drop `w`, and normalize with
the external raylib normalization. -/
def transform_normal (ops : FOps K) (normal : Vec3 K) (model_matrix : Mat4 K) : Vec3 K :=
  let normal_vec4 : Vec4 K := { x := normal.x, y := normal.y, z := normal.z, w := 0 }
  let transformed_normal_vec4 := multiply_matrix_vector4 model_matrix normal_vec4
  ops.normalizeV (vec4xyz transformed_normal_vec4)

/-- Embedding of `vertex_shader` (`shaders.rs` lines 24–72): model, view and
projection transforms applied in sequence, perspective divide guarded by
`clip_position.w != 0.0`, then the viewport transform. -/
def vertex_shader (ops : FOps K) (vertex : Vertex K) (uniforms : Uniforms K) : Vertex K :=
  let position_vec4 : Vec4 K :=
    { x := vertex.position.x, y := vertex.position.y, z := vertex.position.z, w := 1 }
  let world_position := multiply_matrix_vector4 uniforms.model_matrix position_vec4
  let view_position := multiply_matrix_vector4 uniforms.view_matrix world_position
  let clip_position := multiply_matrix_vector4 uniforms.projection_matrix view_position
  let ndc : Vec3 K :=
    if clip_position.w ≠ 0 then
      { x := clip_position.x / clip_position.w
        y := clip_position.y / clip_position.w
        z := clip_position.z / clip_position.w }
    else
      { x := clip_position.x, y := clip_position.y, z := clip_position.z }
  let ndc_vec4 : Vec4 K := { x := ndc.x, y := ndc.y, z := ndc.z, w := 1 }
  let screen_position := multiply_matrix_vector4 uniforms.viewport_matrix ndc_vec4
  let transformed_position : Vec3 K :=
    { x := screen_position.x, y := screen_position.y, z := screen_position.z }
  { position := vertex.position
    normal := vertex.normal
    tex_coords := vertex.tex_coords
    color := vertex.color
    transformed_position := transformed_position
    transformed_normal := transform_normal ops vertex.normal uniforms.model_matrix }

/-- Spec-side formula for the clip position: the composed matrix
`projection · view · model` applied to the homogeneous position. -/
def specClip (uniforms : Uniforms K) (p : Vec3 K) : Vec4 K :=
  multiply_matrix_vector4
    (matMul uniforms.projection_matrix (matMul uniforms.view_matrix uniforms.model_matrix))
    { x := p.x, y := p.y, z := p.z, w := 1 }

/-- Claim C1: for every input vertex and every `Uniforms`, `vertex_shader`
returns a vertex whose object-space position, normal, texture coordinates
and base color equal the input's; whose screen position equals
`viewport · (clip / clip.w)` with `clip = projection · view · model ·
(position, w=1)`, except that when `clip.w = 0` the perspective divide is
skipped and `clip.xyz` is passed through unscaled to the viewport
transform; and whose transformed normal is `normalize(model · (normal, 0))`
using the model matrix directly. -/
theorem vertex_shader_spec (ops : FOps K) (v : Vertex K) (u : Uniforms K) :
    (vertex_shader ops v u).position = v.position
    ∧ (vertex_shader ops v u).normal = v.normal
    ∧ (vertex_shader ops v u).tex_coords = v.tex_coords
    ∧ (vertex_shader ops v u).color = v.color
    ∧ (vertex_shader ops v u).transformed_normal
        = ops.normalizeV (vec4xyz (multiply_matrix_vector4 u.model_matrix
            { x := v.normal.x, y := v.normal.y, z := v.normal.z, w := 0 }))
    ∧ (vertex_shader ops v u).transformed_position
        = (if (specClip u v.position).w = 0 then
            vec4xyz (multiply_matrix_vector4 u.viewport_matrix
              { x := (specClip u v.position).x
                y := (specClip u v.position).y
                z := (specClip u v.position).z
                w := 1 })
          else
            vec4xyz (multiply_matrix_vector4 u.viewport_matrix
              { x := (specClip u v.position).x / (specClip u v.position).w
                y := (specClip u v.position).y / (specClip u v.position).w
                z := (specClip u v.position).z / (specClip u v.position).w
                w := 1 })) := by
  refine ⟨rfl, rfl, rfl, rfl, rfl, ?_⟩
  have hclip : specClip u v.position
      = multiply_matrix_vector4 u.projection_matrix
          (multiply_matrix_vector4 u.view_matrix
            (multiply_matrix_vector4 u.model_matrix
              { x := v.position.x, y := v.position.y, z := v.position.z, w := 1 })) := by
    simp only [specClip, mulMV_matMul]
  rw [hclip]
  simp only [vertex_shader, vec4xyz]
  by_cases h : (multiply_matrix_vector4 u.projection_matrix
      (multiply_matrix_vector4 u.view_matrix
        (multiply_matrix_vector4 u.model_matrix
          { x := v.position.x, y := v.position.y, z := v.position.z, w := 1 }))).w = 0
  · simp [h]
  · simp [h]

/-- Embedding of the Primitive Assembly loop of `render` (`ns.rs` lines
42–52): `for i in (0..len).step_by(3) { if i + 2 < len { push triple } }`.
Once the guard `i + 2 < len` fails it fails for every larger `i`, so the
remaining iterations of the Rust loop push nothing and the recursion may
stop there. -/
def primAssembleAux {A : Type} (vs : List A) (i : Nat) : List (A × A × A) :=
  if h : i + 2 < vs.length then
    (vs.get ⟨i, by omega⟩, vs.get ⟨i + 1, by omega⟩, vs.get ⟨i + 2, by omega⟩)
      :: primAssembleAux vs (i + 3)
  else []
termination_by vs.length - i
decreasing_by simp_wf; omega

/-- Primitive Assembly as invoked by `render`: the index loop started at 0. -/
def primitive_assembly {A : Type} (vs : List A) : List (A × A × A) :=
  primAssembleAux vs 0

theorem primAssembleAux_length {A : Type} (vs : List A) (i : Nat) :
    (primAssembleAux vs i).length = (vs.length - i) / 3 := by
  induction i using primAssembleAux.induct vs with
  | case1 i h ih =>
    rw [primAssembleAux, dif_pos h]
    simp only [List.length_cons, ih]
    omega
  | case2 i h =>
    rw [primAssembleAux, dif_neg h]
    simp only [List.length_nil]
    omega

theorem primAssembleAux_get? {A : Type} (vs : List A) (i : Nat) :
    ∀ k : Nat, (primAssembleAux vs i).get? k =
      match vs.get? (i + 3 * k), vs.get? (i + 3 * k + 1), vs.get? (i + 3 * k + 2) with
      | some a, some b, some c => some (a, b, c)
      | _, _, _ => none := by
  induction i using primAssembleAux.induct vs with
  | case1 i h ih =>
    intro k
    rw [primAssembleAux, dif_pos h]
    cases k with
    | zero =>
      simp only [Nat.mul_zero, Nat.add_zero, List.get?_cons_zero]
      rw [List.get?_eq_get (by omega), List.get?_eq_get (by omega),
        List.get?_eq_get (by omega)]
    | succ k =>
      simp only [List.get?_cons_succ]
      rw [ih k]
      have e0 : i + 3 + 3 * k = i + 3 * (k + 1) := by ring
      rw [e0]
  | case2 i h =>
    intro k
    rw [primAssembleAux, dif_neg h]
    have hnone : vs.get? (i + 3 * k + 2) = none := by
      rw [List.get?_eq_none]
      omega
    rw [hnone]
    cases vs.get? (i + 3 * k) <;> cases vs.get? (i + 3 * k + 1) <;> simp

/-- Claim C3: for every ordered sequence of `n` transformed vertices,
Primitive Assembly produces exactly `n / 3` triangles; triangle `k`
(0-indexed) consists of vertices `3k`, `3k+1`, `3k+2` in input order, and
any trailing one or two vertices that cannot form a complete triple are
silently dropped (for such `k` the three lookups cannot all succeed and no
triangle exists at index `k`). -/
theorem primitive_assembly_spec {A : Type} (vs : List A) :
    (primitive_assembly vs).length = vs.length / 3
    ∧ ∀ k : Nat, (primitive_assembly vs).get? k =
        match vs.get? (3 * k), vs.get? (3 * k + 1), vs.get? (3 * k + 2) with
        | some a, some b, some c => some (a, b, c)
        | _, _, _ => none := by
  constructor
  · rw [primitive_assembly, primAssembleAux_length]
    omega
  · intro k
    rw [primitive_assembly, primAssembleAux_get? vs 0 k]
    simp only [Nat.zero_add]

/-- Modelled from the spec (§3 Data model): raylib `Vector2`, the screen
coordinate pair of a fragment. -/
structure Vec2 (K : Type) where
  x : K
  y : K
deriving Repr, DecidableEq

/-- Modelled from the spec (§3 Data model): the `Fragment` record of
`fragment.rs` (not under `src/`): screen position, interpolated depth,
world position, normal and base color, and the Lambertian light
intensity computed by the rasterizer. -/
structure Fragment (K : Type) where
  position : Vec2 K
  depth : K
  world_position : Vec3 K
  normal : Vec3 K
  intensity : K
  color : Vec3 K
deriving Repr, DecidableEq

instance : Add (Vec3 K) :=
  ⟨fun a b => { x := a.x + b.x, y := a.y + b.y, z := a.z + b.z }⟩

@[default_instance] instance : HMul (Vec3 K) K (Vec3 K) :=
  ⟨fun v s => { x := v.x * s, y := v.y * s, z := v.z * s }⟩

theorem vec3_add_def (a b : Vec3 K) :
    a + b = { x := a.x + b.x, y := a.y + b.y, z := a.z + b.z } := rfl

theorem vec3_smul_def (v : Vec3 K) (s : K) :
    v * s = { x := v.x * s, y := v.y * s, z := v.z * s } := rfl

/-- Rust `f32::clamp(lo, hi)`: `lo` if below, `hi` if above, otherwise the
value itself. -/
def rustClamp (v lo hi : K) : K :=
  if v < lo then lo else if hi < v then hi else v

/-- raylib `Vector3::length`: Euclidean norm through the external square
root primitive. -/
def vec3_length (ops : FOps K) (v : Vec3 K) : K :=
  ops.sqrt (v.x * v.x + v.y * v.y + v.z * v.z)

/-- Embedding of `exotic_noise` (`shaders.rs` lines 75–83): the absolute
value of a 0.5/0.3/0.2-weighted sum of three products of sines and cosines
at increasing frequency multipliers. -/
def exotic_noise (ops : FOps K) (x y z time frequency : K) : K :=
  let freq := frequency * 2.0
  let n1 := ops.sin (x * freq * 1.5 + time * 0.7) * ops.cos (y * freq + time * 0.5) *
    ops.sin (z * freq * 2.0 + time * 0.3)
  let n2 := ops.cos (x * freq * 3.0 + time * 1.2) * ops.sin (y * freq * 1.5 + time * 0.8) *
    ops.cos (z * freq + time * 1.1)
  let n3 := ops.sin (x * freq * 6.0 + time * 2.0) * ops.cos (y * freq * 4.0 + time * 1.5) *
    ops.sin (z * freq * 3.0 + time * 0.9)
  |n1 * 0.5 + n2 * 0.3 + n3 * 0.2|

/-- Embedding of the default `fragment_shader` (`shaders.rs` lines 86–89):
returns the fragment's interpolated base color unchanged. -/
def fragment_shader (fragment : Fragment K) (_uniforms : Uniforms K) : Vec3 K :=
  fragment.color

/-- Embedding of `sun_fragment_shader` (`shaders.rs` lines 92–149). -/
def sun_fragment_shader (ops : FOps K) (fragment : Fragment K) (uniforms : Uniforms K) :
    Vec3 K :=
  let pos := fragment.world_position
  let time := uniforms.time
  let cosmic_energy := exotic_noise ops pos.x pos.y pos.z time 3.0 * 0.8 +
    exotic_noise ops (pos.x * 2.0) (pos.y * 2.0) (pos.z * 2.0) (time + 100.0) 2.0 * 0.4 +
    exotic_noise ops (pos.x * 4.0) (pos.y * 4.0) (pos.z * 4.0) (time + 200.0) 1.5 * 0.2
  let pulsation := |ops.sin (time * 1.5)| * 0.3 + |ops.cos (time * 2.2)| * 0.2 + 0.5
  let distance_from_center := vec3_length ops pos
  let core_color : Vec3 K := { x := 1.0, y := 0.1, z := 0.8 }
  let surface_color : Vec3 K := { x := 0.2, y := 0.9, z := 1.0 }
  let corona_color : Vec3 K := { x := 0.9, y := 1.0, z := 0.1 }
  let zone_factor := min
    (if distance_from_center < 0.6 then 0.0
     else if distance_from_center < 0.85 then (distance_from_center - 0.6) / 0.25
     else (distance_from_center - 0.85) / 0.15) 1.0
  let base_color :=
    if zone_factor < 0.3 then
      let t := zone_factor * 3.33
      core_color * (1.0 - t) + surface_color * t
    else if zone_factor < 0.7 then
      let t := (zone_factor - 0.3) * 2.5
      surface_color * (1.0 - t) + corona_color * t
    else corona_color
  let intensity := (cosmic_energy * 2.0 + pulsation) * 0.7
  let energy_burst := exotic_noise ops (pos.x * 0.3) (pos.y * 0.3) (pos.z * 0.3) (time * 3.0) 0.5
  let burst_effect := min (energy_burst * 3.0 + |ops.sin (time * 4.0)| * 0.7) 1.0
  let final_color := base_color * intensity * (1.0 - burst_effect * 0.4) +
    ({ x := 1.0, y := 1.0, z := 0.5 } : Vec3 K) * burst_effect * 0.6
  { x := rustClamp final_color.x 0 1
    y := rustClamp final_color.y 0 1
    z := rustClamp final_color.z 0 1 }

/-- Embedding of `mercury_fragment_shader` (`shaders.rs` lines 152–181). -/
def mercury_fragment_shader (ops : FOps K) (fragment : Fragment K) (uniforms : Uniforms K) :
    Vec3 K :=
  let pos := fragment.world_position
  let time := uniforms.time
  let crystal_pattern := exotic_noise ops pos.x pos.y pos.z time 4.0
  let metal_veins := exotic_noise ops (pos.x * 2.0) (pos.y * 2.0) (pos.z * 2.0) (time + 50.0) 3.0
  let base_metal : Vec3 K := { x := 0.2, y := 0.3, z := 0.2 }
  let crystal_color : Vec3 K := { x := 0.4, y := 0.8, z := 0.9 }
  let vein_color : Vec3 K := { x := 0.9, y := 0.6, z := 0.3 }
  let crystal_factor := ops.powf (crystal_pattern * 0.6 + 0.4) 1.5
  let vein_factor := ops.powf (metal_veins * 0.4 + 0.6) 2.0
  let surface_color := base_metal * (1.0 - crystal_factor) + crystal_color * crystal_factor
  let final_color := surface_color * (1.0 - vein_factor * 0.3) + vein_color * vein_factor * 0.3
  let iridescence := |ops.sin (pos.x * 8.0 + time * 2.0)| * 0.2
  let iridescent_color := final_color * (1.0 - iridescence) +
    ({ x := 0.3, y := 0.9, z := 0.7 } : Vec3 K) * iridescence
  { x := rustClamp iridescent_color.x 0 1
    y := rustClamp iridescent_color.y 0 1
    z := rustClamp iridescent_color.z 0 1 }

/-- Embedding of `earth_fragment_shader` (`shaders.rs` lines 184–217). -/
def earth_fragment_shader (ops : FOps K) (fragment : Fragment K) (uniforms : Uniforms K) :
    Vec3 K :=
  let pos := fragment.world_position
  let time := uniforms.time
  let continent_pattern := exotic_noise ops pos.x pos.y pos.z time 2.0
  let alien_rivers := exotic_noise ops (pos.x * 3.0) (pos.y * 3.0) (pos.z * 3.0) (time + 30.0) 1.5
  let bio_luminescence := exotic_noise ops (pos.x * 5.0) (pos.y * 5.0) (pos.z * 5.0) (time * 2.0) 1.0
  let ocean_color : Vec3 K := { x := 0.1, y := 0.8, z := 0.6 }
  let land_color : Vec3 K := { x := 0.9, y := 0.4, z := 0.7 }
  let river_color : Vec3 K := { x := 0.3, y := 0.9, z := 0.9 }
  let bio_color : Vec3 K := { x := 0.8, y := 0.2, z := 0.9 }
  let is_land := min (max (continent_pattern * 0.8 + 0.2) 0.0) 1.0
  let is_river := min (max (alien_rivers * 0.5 + 0.5) 0.0) 1.0
  let is_bio := min (max (bio_luminescence * 0.7 + 0.3) 0.0) 1.0
  let base_color := ocean_color * (1.0 - is_land) + land_color * is_land
  let with_rivers := base_color * (1.0 - is_river * 0.4) + river_color * is_river * 0.4
  let bio_pulse := |ops.sin (time * 3.0)| * 0.3 + 0.7
  let final_color := with_rivers * (1.0 - is_bio * 0.2) + bio_color * is_bio * 0.2 * bio_pulse
  { x := rustClamp final_color.x 0 1
    y := rustClamp final_color.y 0 1
    z := rustClamp final_color.z 0 1 }

/-- Embedding of `mars_fragment_shader` (`shaders.rs` lines 220–248). -/
def mars_fragment_shader (ops : FOps K) (fragment : Fragment K) (uniforms : Uniforms K) :
    Vec3 K :=
  let pos := fragment.world_position
  let time := uniforms.time
  let desert_pattern := exotic_noise ops pos.x pos.y pos.z time 2.5
  let canyon_pattern := exotic_noise ops (pos.x * 1.5) (pos.y * 1.5) (pos.z * 1.5) (time + 20.0) 2.0
  let dust_storm := exotic_noise ops (pos.x * 0.5) (pos.y * 0.5) (pos.z * 0.5) (time * 0.3) 0.8
  let base_color : Vec3 K := { x := 0.8, y := 0.2, z := 0.4 }
  let canyon_color : Vec3 K := { x := 0.6, y := 0.8, z := 0.2 }
  let storm_color : Vec3 K := { x := 0.9, y := 0.7, z := 0.3 }
  let desert_factor := ops.powf (desert_pattern * 0.7 + 0.3) 1.2
  let canyon_factor := ops.powf (canyon_pattern * 0.5 + 0.5) 1.5
  let storm_factor := ops.powf (dust_storm * 0.3 + 0.7) 0.8
  let desert_surface := base_color * (1.0 - desert_factor) + canyon_color * desert_factor
  let canyon_surface := desert_surface * (1.0 - canyon_factor * 0.4) +
    canyon_color * canyon_factor * 0.4
  let final_color := canyon_surface * (1.0 - storm_factor * 0.2) + storm_color * storm_factor * 0.2
  { x := rustClamp final_color.x 0 1
    y := rustClamp final_color.y 0 1
    z := rustClamp final_color.z 0 1 }

/-- Embedding of `uranus_fragment_shader` (`shaders.rs` lines 251–279); the
function exists in the source but no registry entry dispatches to it. -/
def uranus_fragment_shader (ops : FOps K) (fragment : Fragment K) (uniforms : Uniforms K) :
    Vec3 K :=
  let pos := fragment.world_position
  let time := uniforms.time
  let nebula_bands := exotic_noise ops pos.x pos.y pos.z (time * 0.2) 1.2
  let gas_vortices := exotic_noise ops (pos.x * 2.0) (pos.y * 2.0) (pos.z * 2.0) (time * 0.5) 1.8
  let energy_clouds := exotic_noise ops (pos.x * 0.7) (pos.y * 0.7) (pos.z * 0.7) (time * 1.5) 0.9
  let deep_nebula : Vec3 K := { x := 0.3, y := 0.1, z := 0.8 }
  let vortex_color : Vec3 K := { x := 0.7, y := 0.3, z := 0.9 }
  let energy_color : Vec3 K := { x := 0.1, y := 0.9, z := 0.8 }
  let band_factor := ops.powf (nebula_bands * 0.6 + 0.4) 1.3
  let vortex_factor := ops.powf (gas_vortices * 0.4 + 0.6) 1.7
  let energy_factor := ops.powf (energy_clouds * 0.5 + 0.5) 2.0
  let banded_gas := deep_nebula * (1.0 - band_factor) + vortex_color * band_factor
  let vortex_gas := banded_gas * (1.0 - vortex_factor * 0.3) + vortex_color * vortex_factor * 0.3
  let final_color := vortex_gas * (1.0 - energy_factor * 0.4) + energy_color * energy_factor * 0.4
  { x := rustClamp final_color.x 0 1
    y := rustClamp final_color.y 0 1
    z := rustClamp final_color.z 0 1 }

/-- Embedding of `nave_fragment_shader` (`shaders.rs` lines 282–315). -/
def nave_fragment_shader (ops : FOps K) (fragment : Fragment K) (uniforms : Uniforms K) :
    Vec3 K :=
  let pos := fragment.world_position
  let time := uniforms.time
  let circuit_pattern := exotic_noise ops pos.x pos.y pos.z (time * 2.0) 4.0
  let energy_grid := exotic_noise ops (pos.x * 1.5) (pos.y * 1.5) (pos.z * 1.5) (time * 1.2) 3.0
  let hologram_effect := exotic_noise ops (pos.x * 0.8) (pos.y * 0.8) (pos.z * 0.8) (time * 3.0) 2.0
  let ship_base : Vec3 K := { x := 0.2, y := 0.1, z := 0.4 }
  let circuit_color : Vec3 K := { x := 0.1, y := 0.9, z := 0.6 }
  let energy_color : Vec3 K := { x := 0.8, y := 0.3, z := 0.9 }
  let hologram_color : Vec3 K := { x := 0.3, y := 0.7, z := 1.0 }
  let circuit_factor := ops.powf (circuit_pattern * 0.7 + 0.3) 2.0
  let grid_factor := ops.powf (energy_grid * 0.5 + 0.5) 1.8
  let hologram_factor := ops.powf (hologram_effect * 0.4 + 0.6) 1.5
  let base_with_circuits := ship_base * (1.0 - circuit_factor) + circuit_color * circuit_factor
  let with_energy_grid := base_with_circuits * (1.0 - grid_factor * 0.3) +
    energy_color * grid_factor * 0.3
  let final_color := with_energy_grid * (1.0 - hologram_factor * 0.2) +
    hologram_color * hologram_factor * 0.2
  let energy_pulse := |ops.sin (time * 4.0)| * 0.4 + 0.6
  let pulsed_color : Vec3 K := final_color * energy_pulse
  { x := rustClamp pulsed_color.x 0 1
    y := rustClamp pulsed_color.y 0 1
    z := rustClamp pulsed_color.z 0 1 }

/-- Embedding of `zephyr_fragment_shader` (`shaders.rs` lines 318–345). -/
def zephyr_fragment_shader (ops : FOps K) (fragment : Fragment K) (uniforms : Uniforms K) :
    Vec3 K :=
  let pos := fragment.world_position
  let time := uniforms.time
  let crystal_storm := exotic_noise ops pos.x pos.y pos.z (time * 1.5) 2.5
  let wind_currents := exotic_noise ops (pos.x * 1.8) (pos.y * 1.8) (pos.z * 1.8) (time * 0.8) 2.2
  let electric_arcs := exotic_noise ops (pos.x * 0.6) (pos.y * 0.6) (pos.z * 0.6) (time * 2.5) 1.5
  let storm_base : Vec3 K := { x := 0.1, y := 0.3, z := 0.7 }
  let crystal_color : Vec3 K := { x := 0.4, y := 0.9, z := 0.8 }
  let electric_color : Vec3 K := { x := 0.9, y := 0.5, z := 1.0 }
  let storm_factor := ops.powf (crystal_storm * 0.8 + 0.2) 1.4
  let wind_factor := ops.powf (wind_currents * 0.6 + 0.4) 1.6
  let electric_factor := ops.powf (electric_arcs * 0.4 + 0.6) 2.2
  let stormy_sky := storm_base * (1.0 - storm_factor) + crystal_color * storm_factor
  let with_winds := stormy_sky * (1.0 - wind_factor * 0.3) + crystal_color * wind_factor * 0.3
  let final_color := with_winds * (1.0 - electric_factor * 0.5) +
    electric_color * electric_factor * 0.5
  { x := rustClamp final_color.x 0 1
    y := rustClamp final_color.y 0 1
    z := rustClamp final_color.z 0 1 }

/-- Embedding of `pyrion_fragment_shader` (`shaders.rs` lines 348–376). -/
def pyrion_fragment_shader (ops : FOps K) (fragment : Fragment K) (uniforms : Uniforms K) :
    Vec3 K :=
  let pos := fragment.world_position
  let time := uniforms.time
  let sulfur_flows := exotic_noise ops pos.x pos.y pos.z (time * 0.7) 2.0
  let volcanic_cracks := exotic_noise ops (pos.x * 2.2) (pos.y * 2.2) (pos.z * 2.2) (time * 1.1) 1.8
  let magma_pools := exotic_noise ops (pos.x * 0.9) (pos.y * 0.9) (pos.z * 0.9) (time * 0.5) 1.3
  let crust_color : Vec3 K := { x := 0.8, y := 0.6, z := 0.1 }
  let sulfur_color : Vec3 K := { x := 0.9, y := 0.8, z := 0.2 }
  let magma_color : Vec3 K := { x := 1.0, y := 0.4, z := 0.1 }
  let crack_color : Vec3 K := { x := 0.6, y := 0.3, z := 0.1 }
  let sulfur_factor := ops.powf (sulfur_flows * 0.7 + 0.3) 1.3
  let crack_factor := ops.powf (volcanic_cracks * 0.5 + 0.5) 1.8
  let magma_factor := ops.powf (magma_pools * 0.6 + 0.4) 2.0
  let sulfur_surface := crust_color * (1.0 - sulfur_factor) + sulfur_color * sulfur_factor
  let with_cracks := sulfur_surface * (1.0 - crack_factor * 0.4) + crack_color * crack_factor * 0.4
  let final_color := with_cracks * (1.0 - magma_factor * 0.6) + magma_color * magma_factor * 0.6
  { x := rustClamp final_color.x 0 1
    y := rustClamp final_color.y 0 1
    z := rustClamp final_color.z 0 1 }

/-- Embedding of `glacia_fragment_shader` (`shaders.rs` lines 379–407). -/
def glacia_fragment_shader (ops : FOps K) (fragment : Fragment K) (uniforms : Uniforms K) :
    Vec3 K :=
  let pos := fragment.world_position
  let time := uniforms.time
  let alien_ice := exotic_noise ops pos.x pos.y pos.z (time * 0.3) 2.8
  let frozen_gas := exotic_noise ops (pos.x * 1.7) (pos.y * 1.7) (pos.z * 1.7) (time * 0.9) 2.1
  let crystal_growth := exotic_noise ops (pos.x * 0.8) (pos.y * 0.8) (pos.z * 0.8) (time * 1.7) 1.4
  let ice_base : Vec3 K := { x := 0.7, y := 0.9, z := 1.0 }
  let alien_ice_color : Vec3 K := { x := 0.4, y := 0.8, z := 0.5 }
  let gas_color : Vec3 K := { x := 0.8, y := 0.5, z := 0.9 }
  let crystal_color : Vec3 K := { x := 0.3, y := 0.7, z := 0.9 }
  let ice_factor := ops.powf (alien_ice * 0.6 + 0.4) 1.2
  let gas_factor := ops.powf (frozen_gas * 0.5 + 0.5) 1.5
  let crystal_factor := ops.powf (crystal_growth * 0.4 + 0.6) 1.9
  let icy_surface := ice_base * (1.0 - ice_factor) + alien_ice_color * ice_factor
  let with_gas := icy_surface * (1.0 - gas_factor * 0.3) + gas_color * gas_factor * 0.3
  let final_color := with_gas * (1.0 - crystal_factor * 0.4) + crystal_color * crystal_factor * 0.4
  { x := rustClamp final_color.x 0 1
    y := rustClamp final_color.y 0 1
    z := rustClamp final_color.z 0 1 }

/-- Embedding of `umbraleth_fragment_shader` (`shaders.rs` lines 410–438). -/
def umbraleth_fragment_shader (ops : FOps K) (fragment : Fragment K) (uniforms : Uniforms K) :
    Vec3 K :=
  let pos := fragment.world_position
  let time := uniforms.time
  let dark_energy := exotic_noise ops pos.x pos.y pos.z (time * 0.4) 1.5
  let void_vortices := exotic_noise ops (pos.x * 1.3) (pos.y * 1.3) (pos.z * 1.3) (time * 0.6) 1.8
  let quantum_fluctuations := exotic_noise ops (pos.x * 0.5) (pos.y * 0.5) (pos.z * 0.5)
    (time * 2.0) 0.9
  let void_color : Vec3 K := { x := 0.05, y := 0.02, z := 0.1 }
  let energy_color : Vec3 K := { x := 0.4, y := 0.1, z := 0.6 }
  let vortex_color : Vec3 K := { x := 0.2, y := 0.05, z := 0.4 }
  let quantum_color : Vec3 K := { x := 0.6, y := 0.2, z := 0.8 }
  let energy_factor := ops.powf (dark_energy * 0.5 + 0.5) 1.7
  let vortex_factor := ops.powf (void_vortices * 0.4 + 0.6) 2.0
  let quantum_factor := ops.powf (quantum_fluctuations * 0.3 + 0.7) 2.5
  let energy_void := void_color * (1.0 - energy_factor) + energy_color * energy_factor
  let with_vortices := energy_void * (1.0 - vortex_factor * 0.5) + vortex_color * vortex_factor * 0.5
  let final_color := with_vortices * (1.0 - quantum_factor * 0.7) +
    quantum_color * quantum_factor * 0.7
  { x := rustClamp final_color.x 0 1
    y := rustClamp final_color.y 0 1
    z := rustClamp final_color.z 0 1 }

/-- Embedding of `verdis_fragment_shader` (`shaders.rs` lines 441–469). -/
def verdis_fragment_shader (ops : FOps K) (fragment : Fragment K) (uniforms : Uniforms K) :
    Vec3 K :=
  let pos := fragment.world_position
  let time := uniforms.time
  let alien_flora := exotic_noise ops pos.x pos.y pos.z (time * 0.8) 2.3
  let bio_lights := exotic_noise ops (pos.x * 1.6) (pos.y * 1.6) (pos.z * 1.6) (time * 1.4) 1.9
  let fungal_networks := exotic_noise ops (pos.x * 0.7) (pos.y * 0.7) (pos.z * 0.7) (time * 0.9) 1.2
  let flora_base : Vec3 K := { x := 0.2, y := 0.7, z := 0.3 }
  let bio_color : Vec3 K := { x := 0.1, y := 0.9, z := 0.5 }
  let fungal_color : Vec3 K := { x := 0.8, y := 0.3, z := 0.6 }
  let light_color : Vec3 K := { x := 0.4, y := 1.0, z := 0.7 }
  let flora_factor := ops.powf (alien_flora * 0.7 + 0.3) 1.4
  let bio_factor := ops.powf (bio_lights * 0.6 + 0.4) 1.8
  let fungal_factor := ops.powf (fungal_networks * 0.5 + 0.5) 2.1
  let forest_floor := flora_base * (1.0 - flora_factor) + bio_color * flora_factor
  let with_lights := forest_floor * (1.0 - bio_factor * 0.4) + light_color * bio_factor * 0.4
  let final_color := with_lights * (1.0 - fungal_factor * 0.3) + fungal_color * fungal_factor * 0.3
  { x := rustClamp final_color.x 0 1
    y := rustClamp final_color.y 0 1
    z := rustClamp final_color.z 0 1 }

/-- Embedding of the per-fragment shader dispatch of `render` (`ns.rs`
lines 62–75): the `match planet_type` registry, with the default shader as
the fallback arm.  A Rust `match` on `&str` compares the scrutinee with
each literal pattern in order, which the chain of equality tests mirrors. -/
def shade (ops : FOps K) (fragment : Fragment K) (uniforms : Uniforms K)
    (planet_type : String) : Vec3 K :=
  if planet_type = "Voidheart" then umbraleth_fragment_shader ops fragment uniforms
  else if planet_type = "Zephyr" then zephyr_fragment_shader ops fragment uniforms
  else if planet_type = "Pyrion" then pyrion_fragment_shader ops fragment uniforms
  else if planet_type = "Glacia" then glacia_fragment_shader ops fragment uniforms
  else if planet_type = "Umbraleth" then umbraleth_fragment_shader ops fragment uniforms
  else if planet_type = "Verdis" then verdis_fragment_shader ops fragment uniforms
  else if planet_type = "Crystallos" then earth_fragment_shader ops fragment uniforms
  else if planet_type = "Vulcanus" then mars_fragment_shader ops fragment uniforms
  else if planet_type = "Lunaris" then mercury_fragment_shader ops fragment uniforms
  else if planet_type = "Stellaris" then sun_fragment_shader ops fragment uniforms
  else if planet_type = "Nave" then nave_fragment_shader ops fragment uniforms
  else fragment_shader fragment uniforms

/-- The eleven shader-selecting identifiers recognized by the registry. -/
def registryIds : List String :=
  ["Voidheart", "Zephyr", "Pyrion", "Glacia", "Umbraleth", "Verdis",
   "Crystallos", "Vulcanus", "Lunaris", "Stellaris", "Nave"]

/-- The all-zero 4×4 matrix, used as the scrubbed value when stating that a
shader ignores the matrix fields of `Uniforms`. -/
def zeroMat4 : Mat4 K :=
  { m00 := 0, m01 := 0, m02 := 0, m03 := 0
    m10 := 0, m11 := 0, m12 := 0, m13 := 0
    m20 := 0, m21 := 0, m22 := 0, m23 := 0
    m30 := 0, m31 := 0, m32 := 0, m33 := 0 }

/-- The fragment with every attribute other than the interpolated world
position replaced by a fixed value. -/
def fragmentKeyOnly (fragment : Fragment K) : Fragment K :=
  { position := { x := 0, y := 0 }
    depth := 0
    world_position := fragment.world_position
    normal := { x := 0, y := 0, z := 0 }
    intensity := 0
    color := { x := 0, y := 0, z := 0 } }

/-- The uniforms with every field other than the elapsed time replaced by a
fixed value. -/
def uniformsTimeOnly (uniforms : Uniforms K) : Uniforms K :=
  { model_matrix := zeroMat4
    view_matrix := zeroMat4
    projection_matrix := zeroMat4
    viewport_matrix := zeroMat4
    time := uniforms.time
    dt := 0 }

/-- Claim C4: for every fragment, uniforms and shader-selecting identifier
that is not one of the recognized registry names, the dispatch falls
through to the default shader and the resulting color equals the
fragment's interpolated base color, unchanged. -/
theorem shade_unrecognized_default (ops : FOps K) (fragment : Fragment K)
    (uniforms : Uniforms K) (planet_type : String)
    (h : planet_type ∉ registryIds) :
    shade ops fragment uniforms planet_type = fragment.color := by
  simp only [registryIds, List.mem_cons, List.not_mem_nil, or_false, not_or] at h
  obtain ⟨h1, h2, h3, h4, h5, h6, h7, h8, h9, h10, h11⟩ := h
  simp [shade, fragment_shader, h1, h2, h3, h4, h5, h6, h7, h8, h9, h10, h11]

/-- Computable rational stand-ins for the external floating-point
primitives, used to evaluate the embeddings at concrete inputs. -/
def qOps : FOps ℚ :=
  { sin := fun _ => 0
    cos := fun _ => 0
    powf := fun _ _ => 0
    sqrt := fun _ => 0
    normalizeV := fun v => v
    toI32 := fun q => ⌊q⌋ }

/-- A concrete fragment over the rationals. -/
def fragQ : Fragment ℚ :=
  { position := { x := 3, y := 4 }
    depth := 1
    world_position := { x := 1, y := 2, z := 3 }
    normal := { x := 0, y := 0, z := 1 }
    intensity := 1/2
    color := { x := 1/4, y := 1/2, z := 3/4 } }

/-- Concrete uniforms over the rationals. -/
def uniQ : Uniforms ℚ :=
  { model_matrix := zeroMat4
    view_matrix := zeroMat4
    projection_matrix := zeroMat4
    viewport_matrix := zeroMat4
    time := 5
    dt := 1/60 }

/-- Witness for C4: a concrete unrecognized identifier takes the default
path and returns the base color. -/
theorem shade_unrecognized_default_witness :
    shade qOps fragQ uniQ "Gorblax" = fragQ.color :=
  shade_unrecognized_default qOps fragQ uniQ "Gorblax" (by decide)

set_option maxHeartbeats 4000000 in
theorem shade_time_scrub (ops : FOps K) (fragment : Fragment K)
    (uniforms : Uniforms K) (planet_type : String) :
    shade ops fragment uniforms planet_type
      = shade ops fragment (uniformsTimeOnly uniforms) planet_type := by
  simp only [shade]
  by_cases h1 : planet_type = "Voidheart"
  · rw [if_pos h1, if_pos h1]
    exact rfl
  · rw [if_neg h1, if_neg h1]
    by_cases h2 : planet_type = "Zephyr"
    · rw [if_pos h2, if_pos h2]
      exact rfl
    · rw [if_neg h2, if_neg h2]
      by_cases h3 : planet_type = "Pyrion"
      · rw [if_pos h3, if_pos h3]
        exact rfl
      · rw [if_neg h3, if_neg h3]
        by_cases h4 : planet_type = "Glacia"
        · rw [if_pos h4, if_pos h4]
          exact rfl
        · rw [if_neg h4, if_neg h4]
          by_cases h5 : planet_type = "Umbraleth"
          · rw [if_pos h5, if_pos h5]
            exact rfl
          · rw [if_neg h5, if_neg h5]
            by_cases h6 : planet_type = "Verdis"
            · rw [if_pos h6, if_pos h6]
              exact rfl
            · rw [if_neg h6, if_neg h6]
              by_cases h7 : planet_type = "Crystallos"
              · rw [if_pos h7, if_pos h7]
                exact rfl
              · rw [if_neg h7, if_neg h7]
                by_cases h8 : planet_type = "Vulcanus"
                · rw [if_pos h8, if_pos h8]
                  exact rfl
                · rw [if_neg h8, if_neg h8]
                  by_cases h9 : planet_type = "Lunaris"
                  · rw [if_pos h9, if_pos h9]
                    exact rfl
                  · rw [if_neg h9, if_neg h9]
                    by_cases h10 : planet_type = "Stellaris"
                    · rw [if_pos h10, if_pos h10]
                      exact rfl
                    · rw [if_neg h10, if_neg h10]
                      by_cases h11 : planet_type = "Nave"
                      · rw [if_pos h11, if_pos h11]
                        exact rfl
                      · rw [if_neg h11, if_neg h11]
                        exact rfl

/-- Claim C5: shading is deterministic and a pure function of exactly the
fragment, `uniforms.time` and the shader identifier: two uniforms agreeing
on `time` (whatever their matrices and `dt`) produce the identical color
for every fragment and identifier, and there is no hidden state in the
embedding. -/
theorem shade_deterministic (ops : FOps K) (fragment : Fragment K)
    (u1 u2 : Uniforms K) (planet_type : String) (h : u1.time = u2.time) :
    shade ops fragment u1 planet_type = shade ops fragment u2 planet_type := by
  have e : uniformsTimeOnly u1 = uniformsTimeOnly u2 := by
    simp [uniformsTimeOnly, h]
  calc shade ops fragment u1 planet_type
      = shade ops fragment (uniformsTimeOnly u1) planet_type :=
        shade_time_scrub ops fragment u1 planet_type
    _ = shade ops fragment (uniformsTimeOnly u2) planet_type := by rw [e]
    _ = shade ops fragment u2 planet_type :=
        (shade_time_scrub ops fragment u2 planet_type).symm

/-- Concrete uniforms agreeing with `uniQ` on `time` but not on `dt` or the
matrices. -/
def uniQb : Uniforms ℚ :=
  { model_matrix := { zeroMat4 with m00 := 7 }
    view_matrix := zeroMat4
    projection_matrix := zeroMat4
    viewport_matrix := zeroMat4
    time := 5
    dt := 2 }

/-- Witness for C5: the sun shader colors a concrete fragment identically
under two uniforms that agree only on `time`. -/
theorem shade_deterministic_witness :
    shade qOps fragQ uniQ "Stellaris" = shade qOps fragQ uniQb "Stellaris" :=
  shade_deterministic qOps fragQ uniQ uniQb "Stellaris" rfl

/-- All three components of a color lie in `[0, 1]`. -/
@[reducible] def inUnitInterval (v : Vec3 K) : Prop :=
  0 ≤ v.x ∧ v.x ≤ 1 ∧ 0 ≤ v.y ∧ v.y ≤ 1 ∧ 0 ≤ v.z ∧ v.z ≤ 1

theorem rustClamp_mem (v : K) : 0 ≤ rustClamp v 0 1 ∧ rustClamp v 0 1 ≤ 1 := by
  unfold rustClamp
  split_ifs with h1 h2
  · exact ⟨le_refl 0, zero_le_one⟩
  · exact ⟨zero_le_one, le_refl 1⟩
  · exact ⟨not_lt.mp h1, not_lt.mp h2⟩

theorem clampTriple_mem (a b c : K) :
    inUnitInterval ({ x := rustClamp a 0 1, y := rustClamp b 0 1, z := rustClamp c 0 1 } : Vec3 K) :=
  ⟨(rustClamp_mem a).1, (rustClamp_mem a).2, (rustClamp_mem b).1,
   (rustClamp_mem b).2, (rustClamp_mem c).1, (rustClamp_mem c).2⟩

/-- Claim C6: every named (non-default) shader of the registry clamps each
channel to `[0, 1]` before returning, so for every fragment and uniforms
each RGB component of its color lies in `[0, 1]`. -/
theorem named_shaders_clamped (ops : FOps K) (fragment : Fragment K)
    (uniforms : Uniforms K) :
    inUnitInterval (sun_fragment_shader ops fragment uniforms)
    ∧ inUnitInterval (mercury_fragment_shader ops fragment uniforms)
    ∧ inUnitInterval (earth_fragment_shader ops fragment uniforms)
    ∧ inUnitInterval (mars_fragment_shader ops fragment uniforms)
    ∧ inUnitInterval (nave_fragment_shader ops fragment uniforms)
    ∧ inUnitInterval (zephyr_fragment_shader ops fragment uniforms)
    ∧ inUnitInterval (pyrion_fragment_shader ops fragment uniforms)
    ∧ inUnitInterval (glacia_fragment_shader ops fragment uniforms)
    ∧ inUnitInterval (umbraleth_fragment_shader ops fragment uniforms)
    ∧ inUnitInterval (verdis_fragment_shader ops fragment uniforms) := by
  refine ⟨?_, ?_, ?_, ?_, ?_, ?_, ?_, ?_, ?_, ?_⟩
  · simp only [sun_fragment_shader]
    exact clampTriple_mem _ _ _
  · simp only [mercury_fragment_shader]
    exact clampTriple_mem _ _ _
  · simp only [earth_fragment_shader]
    exact clampTriple_mem _ _ _
  · simp only [mars_fragment_shader]
    exact clampTriple_mem _ _ _
  · simp only [nave_fragment_shader]
    exact clampTriple_mem _ _ _
  · simp only [zephyr_fragment_shader]
    exact clampTriple_mem _ _ _
  · simp only [pyrion_fragment_shader]
    exact clampTriple_mem _ _ _
  · simp only [glacia_fragment_shader]
    exact clampTriple_mem _ _ _
  · simp only [umbraleth_fragment_shader]
    exact clampTriple_mem _ _ _
  · simp only [verdis_fragment_shader]
    exact clampTriple_mem _ _ _

/-- Claim C7: when the external sine and cosine are bounded by one in
absolute value (as the real functions are), `exotic_noise` returns a value
in `[0, 1]`: the absolute value of a 0.5/0.3/0.2-weighted sum of three
products each bounded by one in magnitude. -/
theorem exotic_noise_range (ops : FOps K) (x y z time frequency : K)
    (hs : ∀ a : K, |ops.sin a| ≤ 1) (hc : ∀ a : K, |ops.cos a| ≤ 1) :
    0 ≤ exotic_noise ops x y z time frequency
    ∧ exotic_noise ops x y z time frequency ≤ 1 := by
  have prod3 : ∀ a b c : K, |a| ≤ 1 → |b| ≤ 1 → |c| ≤ 1 → |a * b * c| ≤ 1 := by
    intro a b c ha hb hc3
    rw [abs_mul, abs_mul]
    have hab : |a| * |b| ≤ 1 := mul_le_one₀ ha (abs_nonneg b) hb
    exact mul_le_one₀ hab (abs_nonneg c) hc3
  simp only [exotic_noise]
  refine ⟨abs_nonneg _, ?_⟩
  set freq := frequency * 2.0 with hfreq
  set n1 := ops.sin (x * freq * 1.5 + time * 0.7) * ops.cos (y * freq + time * 0.5) *
    ops.sin (z * freq * 2.0 + time * 0.3) with hn1
  set n2 := ops.cos (x * freq * 3.0 + time * 1.2) * ops.sin (y * freq * 1.5 + time * 0.8) *
    ops.cos (z * freq + time * 1.1) with hn2
  set n3 := ops.sin (x * freq * 6.0 + time * 2.0) * ops.cos (y * freq * 4.0 + time * 1.5) *
    ops.sin (z * freq * 3.0 + time * 0.9) with hn3
  have h1 : |n1| ≤ 1 := prod3 _ _ _ (hs _) (hc _) (hs _)
  have h2 : |n2| ≤ 1 := prod3 _ _ _ (hc _) (hs _) (hc _)
  have h3 : |n3| ≤ 1 := prod3 _ _ _ (hs _) (hc _) (hs _)
  have tri : |n1 * 0.5 + n2 * 0.3 + n3 * 0.2| ≤ |n1 * 0.5| + |n2 * 0.3| + |n3 * 0.2| :=
    abs_add_three _ _ _
  have e1 : |n1 * 0.5| = |n1| * 0.5 := by
    rw [abs_mul, abs_of_nonneg (by norm_num : (0:K) ≤ 0.5)]
  have e2 : |n2 * 0.3| = |n2| * 0.3 := by
    rw [abs_mul, abs_of_nonneg (by norm_num : (0:K) ≤ 0.3)]
  have e3 : |n3 * 0.2| = |n3| * 0.2 := by
    rw [abs_mul, abs_of_nonneg (by norm_num : (0:K) ≤ 0.2)]
  rw [e1, e2, e3] at tri
  have hb : |n1| * 0.5 + |n2| * 0.3 + |n3| * 0.2 ≤ 1 := by nlinarith [h1, h2, h3]
  exact le_trans tri hb

/-- Witness for C7: the rational stand-ins satisfy the sine and cosine
bounds, and the noise value at a concrete input lies in `[0, 1]`. -/
theorem exotic_noise_range_witness :
    0 ≤ exotic_noise qOps 1 2 3 4 5 ∧ exotic_noise qOps 1 2 3 4 5 ≤ 1 :=
  exotic_noise_range qOps 1 2 3 4 5 (fun a => by norm_num [qOps]) (fun a => by norm_num [qOps])

/-- Claim C9: every named shader of the registry reads only the fragment's
interpolated world position and `uniforms.time`: replacing every other
fragment attribute (screen position, depth, normal, base color, and the
Lambertian light intensity computed by the rasterizer) and every other
uniforms field by fixed values leaves its color unchanged. -/
theorem named_shaders_key_only (ops : FOps K) (fragment : Fragment K)
    (uniforms : Uniforms K) :
    sun_fragment_shader ops fragment uniforms
      = sun_fragment_shader ops (fragmentKeyOnly fragment) (uniformsTimeOnly uniforms)
    ∧ mercury_fragment_shader ops fragment uniforms
      = mercury_fragment_shader ops (fragmentKeyOnly fragment) (uniformsTimeOnly uniforms)
    ∧ earth_fragment_shader ops fragment uniforms
      = earth_fragment_shader ops (fragmentKeyOnly fragment) (uniformsTimeOnly uniforms)
    ∧ mars_fragment_shader ops fragment uniforms
      = mars_fragment_shader ops (fragmentKeyOnly fragment) (uniformsTimeOnly uniforms)
    ∧ nave_fragment_shader ops fragment uniforms
      = nave_fragment_shader ops (fragmentKeyOnly fragment) (uniformsTimeOnly uniforms)
    ∧ zephyr_fragment_shader ops fragment uniforms
      = zephyr_fragment_shader ops (fragmentKeyOnly fragment) (uniformsTimeOnly uniforms)
    ∧ pyrion_fragment_shader ops fragment uniforms
      = pyrion_fragment_shader ops (fragmentKeyOnly fragment) (uniformsTimeOnly uniforms)
    ∧ glacia_fragment_shader ops fragment uniforms
      = glacia_fragment_shader ops (fragmentKeyOnly fragment) (uniformsTimeOnly uniforms)
    ∧ umbraleth_fragment_shader ops fragment uniforms
      = umbraleth_fragment_shader ops (fragmentKeyOnly fragment) (uniformsTimeOnly uniforms)
    ∧ verdis_fragment_shader ops fragment uniforms
      = verdis_fragment_shader ops (fragmentKeyOnly fragment) (uniformsTimeOnly uniforms) :=
  ⟨rfl, rfl, rfl, rfl, rfl, rfl, rfl, rfl, rfl, rfl⟩

/-- Claim C10: several registry identifiers alias the same shader function:
"Voidheart" and "Umbraleth" both dispatch to the Umbraleth shader (hence
yield identical colors), "Crystallos" yields the earth shader's color,
"Vulcanus" the mars shader's, "Lunaris" the mercury shader's, and
"Stellaris" the sun shader's. -/
theorem shade_aliases (ops : FOps K) (fragment : Fragment K) (uniforms : Uniforms K) :
    shade ops fragment uniforms "Voidheart" = umbraleth_fragment_shader ops fragment uniforms
    ∧ shade ops fragment uniforms "Umbraleth" = umbraleth_fragment_shader ops fragment uniforms
    ∧ shade ops fragment uniforms "Voidheart" = shade ops fragment uniforms "Umbraleth"
    ∧ shade ops fragment uniforms "Crystallos" = earth_fragment_shader ops fragment uniforms
    ∧ shade ops fragment uniforms "Vulcanus" = mars_fragment_shader ops fragment uniforms
    ∧ shade ops fragment uniforms "Lunaris" = mercury_fragment_shader ops fragment uniforms
    ∧ shade ops fragment uniforms "Stellaris" = sun_fragment_shader ops fragment uniforms := by
  refine ⟨?_, ?_, ?_, ?_, ?_, ?_, ?_⟩ <;> simp [shade]

/-- Modelled from the spec (§3, §4.6): the `Framebuffer` of
`framebuffer.rs` (not under `src/`): two same-sized grids, a color buffer
and a depth buffer (initialized to `+∞`, modelled as `⊤`), plus the
configured background color.  Grids are total functions on integer pixel
coordinates; only the in-bounds region is ever written. -/
structure Framebuffer (K : Type) where
  width : Int
  height : Int
  background : Vec3 K
  color_buffer : Int → Int → Vec3 K
  depth_buffer : Int → Int → WithTop K

/-- The bounds test of `point`: `(x, y)` lies in `[0, width) × [0, height)`. -/
def inBoundsFB (width height x y : Int) : Bool :=
  decide (0 ≤ x) && decide (x < width) && decide (0 ≤ y) && decide (y < height)

/-- Modelled from the spec (§4.6): `point(x, y, color, depth)` is a no-op
out of bounds and otherwise writes both buffers iff
`depth < depth_buffer[x, y]` (strict). -/
def Framebuffer.point (fb : Framebuffer K) (x y : Int) (color : Vec3 K) (depth : K) :
    Framebuffer K :=
  if inBoundsFB fb.width fb.height x y then
    if (depth : WithTop K) < fb.depth_buffer x y then
      { fb with
        color_buffer := fun i j => if i = x ∧ j = y then color else fb.color_buffer i j
        depth_buffer := fun i j => if i = x ∧ j = y then (depth : WithTop K) else fb.depth_buffer i j }
    else fb
  else fb

/-- Modelled from the spec (§4.6): `clear()` resets every pixel's color to
the configured background color and every depth to `+∞`. -/
def Framebuffer.clear (fb : Framebuffer K) : Framebuffer K :=
  { fb with
    color_buffer := fun _ _ => fb.background
    depth_buffer := fun _ _ => (⊤ : WithTop K) }

/-- One recorded invocation of `point`. -/
structure PointWrite (K : Type) where
  x : Int
  y : Int
  color : Vec3 K
  depth : K

/-- Replay a sequence of `point` calls against a framebuffer, in order. -/
def applyWrites (fb : Framebuffer K) (ws : List (PointWrite K)) : Framebuffer K :=
  ws.foldl (fun acc w => acc.point w.x w.y w.color w.depth) fb

/-- The in-bounds writes of a sequence that target the pixel `(px, py)`. -/
def writesAt (width height px py : Int) (ws : List (PointWrite K)) : List (PointWrite K) :=
  ws.filter (fun w => inBoundsFB width height w.x w.y && decide (w.x = px) && decide (w.y = py))

/-- The smallest depth among a list of writes (`⊤` when there are none). -/
def minDepthAt (ws : List (PointWrite K)) : WithTop K :=
  ws.foldr (fun w acc => min ((w.depth : WithTop K)) acc) ⊤

/-- The color of the first write in the list whose depth equals `m`, or the
fallback when none does. -/
def firstMinColor (fallback : Vec3 K) (m : WithTop K) (ws : List (PointWrite K)) : Vec3 K :=
  match ws.find? (fun w => decide ((w.depth : WithTop K) = m)) with
  | some w => w.color
  | none => fallback

/-- The color left at a pixel by a list of writes against a fresh frame:
the first writer attaining the minimal depth, or the background. -/
def winnerColor (bg : Vec3 K) (ws : List (PointWrite K)) : Vec3 K :=
  firstMinColor bg (minDepthAt ws) ws

/-- The depth and color at a single pixel after replaying, in order, the
writes that target it: each write takes effect iff its depth is strictly
below the current one. -/
def pixelFold (s : WithTop K × Vec3 K) (ws : List (PointWrite K)) : WithTop K × Vec3 K :=
  match ws with
  | [] => s
  | w :: rest =>
    pixelFold (if (w.depth : WithTop K) < s.1 then ((w.depth : WithTop K), w.color) else s) rest

theorem point_width (fb : Framebuffer K) (x y : Int) (c : Vec3 K) (d : K) :
    (fb.point x y c d).width = fb.width := by
  unfold Framebuffer.point
  split_ifs <;> rfl

theorem point_height (fb : Framebuffer K) (x y : Int) (c : Vec3 K) (d : K) :
    (fb.point x y c d).height = fb.height := by
  unfold Framebuffer.point
  split_ifs <;> rfl

theorem point_untouched (fb : Framebuffer K) (x y : Int) (c : Vec3 K) (d : K) (px py : Int)
    (h : ¬(px = x ∧ py = y) ∨ inBoundsFB fb.width fb.height x y = false) :
    (fb.point x y c d).depth_buffer px py = fb.depth_buffer px py
    ∧ (fb.point x y c d).color_buffer px py = fb.color_buffer px py := by
  unfold Framebuffer.point
  rcases h with h | h
  · split_ifs with h1 h2
    · constructor <;> simp [h]
    · exact ⟨rfl, rfl⟩
    · exact ⟨rfl, rfl⟩
  · rw [if_neg]
    · exact ⟨rfl, rfl⟩
    · simp [h]

theorem point_hit (fb : Framebuffer K) (x y : Int) (c : Vec3 K) (d : K)
    (hin : inBoundsFB fb.width fb.height x y = true) :
    (fb.point x y c d).depth_buffer x y
      = (if (d : WithTop K) < fb.depth_buffer x y then (d : WithTop K) else fb.depth_buffer x y)
    ∧ (fb.point x y c d).color_buffer x y
      = (if (d : WithTop K) < fb.depth_buffer x y then c else fb.color_buffer x y) := by
  unfold Framebuffer.point
  rw [if_pos hin]
  split_ifs with h
  · constructor <;> simp
  · exact ⟨rfl, rfl⟩

theorem applyWrites_pixel (ws : List (PointWrite K)) :
    ∀ (fb : Framebuffer K) (px py : Int),
    (applyWrites fb ws).depth_buffer px py
        = (pixelFold (fb.depth_buffer px py, fb.color_buffer px py)
            (writesAt fb.width fb.height px py ws)).1
    ∧ (applyWrites fb ws).color_buffer px py
        = (pixelFold (fb.depth_buffer px py, fb.color_buffer px py)
            (writesAt fb.width fb.height px py ws)).2 := by
  induction ws with
  | nil => intro fb px py; exact ⟨rfl, rfl⟩
  | cons w rest ih =>
    intro fb px py
    have hfold : applyWrites fb (w :: rest)
        = applyWrites (fb.point w.x w.y w.color w.depth) rest := rfl
    have hw : (fb.point w.x w.y w.color w.depth).width = fb.width := point_width fb _ _ _ _
    have hh : (fb.point w.x w.y w.color w.depth).height = fb.height := point_height fb _ _ _ _
    by_cases hpred :
        (inBoundsFB fb.width fb.height w.x w.y && decide (w.x = px) && decide (w.y = py)) = true
    · have hp2 := hpred
      simp only [Bool.and_eq_true, decide_eq_true_eq] at hp2
      obtain ⟨⟨hin, hx⟩, hy⟩ := hp2
      subst hx
      subst hy
      have hfilter : writesAt fb.width fb.height w.x w.y (w :: rest)
          = w :: writesAt fb.width fb.height w.x w.y rest := by
        simp [writesAt, List.filter_cons, hin]
      have hstep : pixelFold (fb.depth_buffer w.x w.y, fb.color_buffer w.x w.y)
            (w :: writesAt fb.width fb.height w.x w.y rest)
          = pixelFold (if (w.depth : WithTop K) < fb.depth_buffer w.x w.y
                then ((w.depth : WithTop K), w.color)
                else (fb.depth_buffer w.x w.y, fb.color_buffer w.x w.y))
              (writesAt fb.width fb.height w.x w.y rest) := rfl
    -- identify the grids of the framebuffer after the hit with the fold step
      obtain ⟨hd1, hc1⟩ := point_hit fb w.x w.y w.color w.depth hin
      have hpair : ((fb.point w.x w.y w.color w.depth).depth_buffer w.x w.y,
            (fb.point w.x w.y w.color w.depth).color_buffer w.x w.y)
          = (if (w.depth : WithTop K) < fb.depth_buffer w.x w.y
              then ((w.depth : WithTop K), w.color)
              else (fb.depth_buffer w.x w.y, fb.color_buffer w.x w.y)) := by
        rw [hd1, hc1]
        by_cases hd : (w.depth : WithTop K) < fb.depth_buffer w.x w.y
        · rw [if_pos hd, if_pos hd, if_pos hd]
        · rw [if_neg hd, if_neg hd, if_neg hd]
      have hrec := ih (fb.point w.x w.y w.color w.depth) w.x w.y
      rw [hw, hh, hpair] at hrec
      rw [hfold, hfilter, hstep]
      exact hrec
    · have hfilter : writesAt fb.width fb.height px py (w :: rest)
          = writesAt fb.width fb.height px py rest := by
        simp only [writesAt, List.filter_cons]
        rw [if_neg hpred]
      have hdisj : ¬(px = w.x ∧ py = w.y)
          ∨ inBoundsFB fb.width fb.height w.x w.y = false := by
        by_cases hb : inBoundsFB fb.width fb.height w.x w.y = true
        · refine Or.inl ?_
          rintro ⟨e1, e2⟩
          exact hpred (by simp [hb, e1, e2])
        · exact Or.inr (by simpa using hb)
      obtain ⟨hd1, hc1⟩ := point_untouched fb w.x w.y w.color w.depth px py hdisj
      have hrec := ih (fb.point w.x w.y w.color w.depth) px py
      rw [hw, hh, hd1, hc1] at hrec
      rw [hfold, hfilter]
      exact hrec

theorem firstMinColor_cons_hit (fallback : Vec3 K) (m : WithTop K) (w : PointWrite K)
    (rest : List (PointWrite K)) (h : (w.depth : WithTop K) = m) :
    firstMinColor fallback m (w :: rest) = w.color := by
  unfold firstMinColor
  rw [List.find?_cons_of_pos]
  simp [h]

theorem firstMinColor_cons_miss (fallback : Vec3 K) (m : WithTop K) (w : PointWrite K)
    (rest : List (PointWrite K)) (h : (w.depth : WithTop K) ≠ m) :
    firstMinColor fallback m (w :: rest) = firstMinColor fallback m rest := by
  unfold firstMinColor
  rw [List.find?_cons_of_neg]
  simp [h]

theorem minDepthAt_attained (ws : List (PointWrite K)) (h : minDepthAt ws ≠ ⊤) :
    ∃ w, ws.find? (fun w2 => decide ((w2.depth : WithTop K) = minDepthAt ws)) = some w := by
  induction ws with
  | nil => simp [minDepthAt] at h
  | cons w rest ih =>
    rw [show minDepthAt (w :: rest)
        = min ((w.depth : WithTop K)) (minDepthAt rest) from rfl] at h ⊢
    rcases le_or_lt ((w.depth : WithTop K)) (minDepthAt rest) with hdm | hdm
    · rw [min_eq_left hdm] at h ⊢
      exact ⟨w, by rw [List.find?_cons_of_pos _ (by simp)]⟩
    · rw [min_eq_right (le_of_lt hdm)] at h ⊢
      rw [List.find?_cons_of_neg _ (by simp [ne_of_gt hdm])]
      exact ih h

theorem firstMinColor_fallback (f1 f2 : Vec3 K) (ws : List (PointWrite K))
    (h : minDepthAt ws ≠ ⊤) :
    firstMinColor f1 (minDepthAt ws) ws = firstMinColor f2 (minDepthAt ws) ws := by
  obtain ⟨w, hw⟩ := minDepthAt_attained ws h
  unfold firstMinColor
  rw [hw]

theorem pixelFold_spec (ws : List (PointWrite K)) :
    ∀ s : WithTop K × Vec3 K,
    (pixelFold s ws).1 = min s.1 (minDepthAt ws)
    ∧ (pixelFold s ws).2
      = (if minDepthAt ws < s.1 then firstMinColor s.2 (minDepthAt ws) ws else s.2) := by
  induction ws with
  | nil =>
    intro s
    constructor
    · exact (min_eq_left le_top).symm
    · rw [show minDepthAt ([] : List (PointWrite K)) = ⊤ from rfl, if_neg (not_top_lt)]
      rfl
  | cons w rest ih =>
    intro s
    have hmd : minDepthAt (w :: rest) = min ((w.depth : WithTop K)) (minDepthAt rest) := rfl
    have hstep : pixelFold s (w :: rest)
        = pixelFold (if (w.depth : WithTop K) < s.1 then ((w.depth : WithTop K), w.color) else s)
            rest := rfl
    rw [hstep, hmd]
    by_cases hds : (w.depth : WithTop K) < s.1
    · rw [if_pos hds]
      obtain ⟨ih1, ih2⟩ := ih ((w.depth : WithTop K), w.color)
      dsimp only at ih1 ih2
      constructor
      · rw [ih1]
        have hlt : min ((w.depth : WithTop K)) (minDepthAt rest) < s.1 :=
          lt_of_le_of_lt (min_le_left _ _) hds
        exact (min_eq_right (le_of_lt hlt)).symm
      · rw [ih2]
        rcases le_or_lt ((w.depth : WithTop K)) (minDepthAt rest) with hdm | hdm
        · rw [min_eq_left hdm, if_pos hds, if_neg (not_lt.mpr hdm)]
          exact (firstMinColor_cons_hit s.2 _ w rest rfl).symm
        · rw [min_eq_right (le_of_lt hdm), if_pos hdm, if_pos (lt_trans hdm hds)]
          have hne : minDepthAt rest ≠ ⊤ :=
            lt_top_iff_ne_top.mp (lt_of_lt_of_le hdm le_top)
          rw [firstMinColor_cons_miss s.2 _ w rest (ne_of_gt hdm)]
          exact firstMinColor_fallback w.color s.2 rest hne
    · rw [if_neg hds]
      obtain ⟨ih1, ih2⟩ := ih s
      constructor
      · rw [ih1, ← min_assoc, min_eq_left (not_lt.mp hds)]
      · rw [ih2]
        by_cases hms : minDepthAt rest < s.1
        · have hmd2 : minDepthAt rest < (w.depth : WithTop K) :=
            lt_of_lt_of_le hms (not_lt.mp hds)
          rw [min_eq_right (le_of_lt hmd2), if_pos hms, if_pos hms]
          exact (firstMinColor_cons_miss s.2 _ w rest (ne_of_gt hmd2)).symm
        · have hcond : ¬ min ((w.depth : WithTop K)) (minDepthAt rest) < s.1 := by
            intro hcon
            rcases min_lt_iff.mp hcon with hcon | hcon
            · exact hds hcon
            · exact hms hcon
          rw [if_neg hms, if_neg hcond]

/-- Claim C2: starting from a cleared framebuffer and replaying any
sequence of `point` calls, the depth buffer at every pixel equals the
smallest depth among the in-bounds writes targeting that pixel (`⊤`, the
initialization, when there are none), and the color buffer holds the color
of the first write attaining that smallest depth — so the closer depth
wins regardless of order and exact ties keep the first writer — while an
out-of-bounds `point` is a no-op and an in-bounds `point` writes iff its
depth is strictly below the stored one. -/
theorem framebuffer_point_invariant (fb : Framebuffer K) (ws : List (PointWrite K))
    (px py ox oy : Int) (oc : Vec3 K) (od : K)
    (hoob : inBoundsFB fb.width fb.height ox oy = false) :
    (applyWrites (Framebuffer.clear fb) ws).depth_buffer px py
        = minDepthAt (writesAt fb.width fb.height px py ws)
    ∧ (applyWrites (Framebuffer.clear fb) ws).color_buffer px py
        = winnerColor fb.background (writesAt fb.width fb.height px py ws)
    ∧ fb.point ox oy oc od = fb
    ∧ (∀ (c : Vec3 K) (d : K), inBoundsFB fb.width fb.height px py = true →
        (fb.point px py c d).depth_buffer px py
          = (if (d : WithTop K) < fb.depth_buffer px py then (d : WithTop K)
             else fb.depth_buffer px py)
        ∧ (fb.point px py c d).color_buffer px py
          = (if (d : WithTop K) < fb.depth_buffer px py then c else fb.color_buffer px py)) := by
  obtain ⟨hA, hB⟩ := applyWrites_pixel ws (Framebuffer.clear fb) px py
  have hclW : (Framebuffer.clear fb).width = fb.width := rfl
  have hclH : (Framebuffer.clear fb).height = fb.height := rfl
  have hclD : (Framebuffer.clear fb).depth_buffer px py = (⊤ : WithTop K) := rfl
  have hclC : (Framebuffer.clear fb).color_buffer px py = fb.background := rfl
  rw [hclW, hclH, hclD, hclC] at hA hB
  obtain ⟨p1, p2⟩ :=
    pixelFold_spec (writesAt fb.width fb.height px py ws) ((⊤ : WithTop K), fb.background)
  dsimp only at p1 p2
  refine ⟨?_, ?_, ?_, ?_⟩
  · rw [hA, p1]
    exact min_eq_right le_top
  · rw [hB, p2]
    by_cases hm : minDepthAt (writesAt fb.width fb.height px py ws) < (⊤ : WithTop K)
    · rw [if_pos hm]
      rfl
    · rw [if_neg hm]
      have hm2 : minDepthAt (writesAt fb.width fb.height px py ws) = (⊤ : WithTop K) := by
        by_contra hne
        exact hm (lt_top_iff_ne_top.mpr hne)
      rw [winnerColor, hm2]
      have hfind : (writesAt fb.width fb.height px py ws).find?
          (fun w => decide ((w.depth : WithTop K) = (⊤ : WithTop K))) = none := by
        rw [List.find?_eq_none]
        intro a _
        simp
      unfold firstMinColor
      rw [hfind]
  · unfold Framebuffer.point
    rw [if_neg]
    simp [hoob]
  · intro c d hin
    exact point_hit fb px py c d hin

/-- A concrete framebuffer over the rationals. -/
def fbQ : Framebuffer ℚ :=
  { width := 4
    height := 4
    background := { x := 0, y := 0, z := 0 }
    color_buffer := fun _ _ => { x := 0, y := 0, z := 0 }
    depth_buffer := fun _ _ => (⊤ : WithTop ℚ) }

/-- Two concrete writes to the same pixel, the closer one second. -/
def wsQ : List (PointWrite ℚ) :=
  [{ x := 1, y := 1, color := { x := 1, y := 0, z := 0 }, depth := 2 },
   { x := 1, y := 1, color := { x := 0, y := 1, z := 0 }, depth := 1 }]

/-- Witness for C2: a concrete out-of-bounds coordinate fails the bounds
test, and the invariant holds for a concrete two-write frame. -/
theorem framebuffer_point_invariant_witness :
    inBoundsFB fbQ.width fbQ.height (-1) 0 = false
    ∧ (applyWrites (Framebuffer.clear fbQ) wsQ).depth_buffer 1 1
        = minDepthAt (writesAt fbQ.width fbQ.height 1 1 wsQ) :=
  ⟨by decide,
   (framebuffer_point_invariant fbQ wsQ 1 1 (-1) 0 { x := 0, y := 0, z := 0 } 3 (by decide)).1⟩

/-- Modelled from the spec (§3, §6): the `Light` of `light.rs` (not under
`src/`): a single world-space position. -/
structure Light (K : Type) where
  position : Vec3 K

/-- The fragments produced by `render` (`ns.rs` lines 34–58) before the
fragment-processing loop: vertex shading of every vertex, primitive
assembly, then rasterization of each triangle with the `triangle` function
of `triangle.rs` (not under `src/`), which is taken as a parameter. -/
def renderFragments (ops : FOps K)
    (triangleFn : Vertex K → Vertex K → Vertex K → Light K → List (Fragment K))
    (uniforms : Uniforms K) (vertex_array : List (Vertex K)) (light : Light K) :
    List (Fragment K) :=
  let transformed_vertices := vertex_array.map (fun v => vertex_shader ops v uniforms)
  let triangles := primitive_assembly transformed_vertices
  triangles.bind (fun tri => triangleFn tri.1 tri.2.1 tri.2.2 light)

/-- Embedding of `render` (`ns.rs` lines 34–83): shade each fragment
through the dispatch and write it to the framebuffer with `point` at the
truncated screen coordinates. -/
def render (ops : FOps K)
    (triangleFn : Vertex K → Vertex K → Vertex K → Light K → List (Fragment K))
    (framebuffer : Framebuffer K) (uniforms : Uniforms K)
    (vertex_array : List (Vertex K)) (light : Light K) (planet_type : String) :
    Framebuffer K :=
  (renderFragments ops triangleFn uniforms vertex_array light).foldl
    (fun fb fragment =>
      fb.point (ops.toI32 fragment.position.x) (ops.toI32 fragment.position.y)
        (shade ops fragment uniforms planet_type) fragment.depth)
    framebuffer

/-- Claim C8: `render` on an empty vertex array produces zero fragments
and returns the framebuffer unchanged — no framebuffer operation is
invoked at all, for every uniforms, light, shader identifier and
rasterizer. -/
theorem render_empty (ops : FOps K)
    (triangleFn : Vertex K → Vertex K → Vertex K → Light K → List (Fragment K))
    (framebuffer : Framebuffer K) (uniforms : Uniforms K) (light : Light K)
    (planet_type : String) :
    renderFragments ops triangleFn uniforms [] light = []
    ∧ render ops triangleFn framebuffer uniforms [] light planet_type = framebuffer := by
  have h0 : primitive_assembly
      (List.map (fun v => vertex_shader ops v uniforms) ([] : List (Vertex K))) = [] := by
    rw [List.map_nil, primitive_assembly, primAssembleAux]
    simp
  have h1 : renderFragments ops triangleFn uniforms [] light = [] := by
    simp only [renderFragments]
    rw [h0]
    rfl
  refine ⟨h1, ?_⟩
  simp only [render]
  rw [h1]
  rfl

end SpaceTravel
